import Mathlib

/-!
Verification of the font resolution and caching layer
(`src/client/fontengine.cpp`).

The C++ code is shallowly embedded: external collaborators (settings
store, display metrics, asset store, freetype backend, skin) are an
`Env` of pure functions, the engine's mutable members are a
`FontEngineState`, and each member function becomes a state-passing
Lean function.  Process-terminating paths (`abort()`, `FATAL_ERROR_IF`,
an uncaught C++ exception) are modelled as `none` / `.fatal` results.
-/

/-- `enum FontMode` from the header: the five stored strategies plus the
request-only sentinel `FM_Unspecified`. -/
inductive FontMode where
  | FM_Standard : FontMode
  | FM_Fallback : FontMode
  | FM_Mono : FontMode
  | FM_Simple : FontMode
  | FM_SimpleMono : FontMode
  | FM_Unspecified : FontMode
deriving DecidableEq, Repr

/-- An opaque backend font handle (`irr::gui::IGUIFont*`).  `sampleHeight`
is the height `getDimension` reports for the fixed sample string used by
the engine, `kerningHeight` is `getKerningHeight()`. -/
structure FontHandle where
  id : Nat
  sampleHeight : Nat
  kerningHeight : Nat
deriving DecidableEq, Repr

/-- Modelled from the spec: the sentinel size request meaning "use the
mode's configured default".  The header (not part of this source slice)
defines it as the all-ones u32. -/
def FONT_SIZE_UNSPECIFIED : Nat := 4294967295

/-- Modelled from the spec: the compiled-in default font size substituted
by the discrete-asset strategy when the incoming base size is the
`FONT_SIZE_UNSPECIFIED` sentinel.  The numeric value lives in a header
outside this source slice; 16 is used as a stand-in. -/
def DEFAULT_FONT_SIZE : Nat := 16

/-- `#define MAX_FONT_SIZE_OFFSET 10`. -/
def MAX_FONT_SIZE_OFFSET : Nat := 10

/-- External collaborators, read-only during a call. -/
structure Env where
  /-- `m_settings->get(key)` (also `g_settings`), total: keys consumed by
  the engine have registered defaults. -/
  settingsGet : String → String
  /-- `m_settings->getDefault(key)`. -/
  settingsGetDefault : String → String
  /-- `getU16(key)` / `getU16NoEx(key)`: a u16-valued setting. -/
  settingsU16 : String → Nat
  /-- the accessor returns a `u16`. -/
  settingsU16_lt : ∀ k, settingsU16 k < 65536
  /-- `m_settings->getFloat(key)`; floats are modelled as rationals. -/
  settingsFloat : String → ℚ
  /-- `g_settings->getBool("freetype")`. -/
  freetypeEnabled : Bool
  /-- the `USE_FREETYPE` compile-time flag. -/
  useFreetype : Bool
  /-- `is_yes(gettext("needs_fallback_font"))`. -/
  needsFallbackFont : Bool
  /-- `RenderingEngine::getDisplayDensity()`. -/
  displayDensity : ℚ
  /-- `fs::PathExists(path)`. -/
  pathExists : String → Bool
  /-- `m_env->getFont(path)`: load a bitmap font asset. -/
  envGetFont : String → Option FontHandle
  /-- `gui::CGUITTFont::createTTFont(env, path, size, .., shadow, shadow_alpha)`. -/
  createTTFont : String → Nat → Nat → Nat → Option FontHandle

/-- The engine's mutable members: `m_currentMode`, `m_default_size`,
`m_font_cache` (an array of per-mode maps, modelled as a function that is
`none` off the stored keys), plus the skin's current font
(`m_env->getSkin()`), which `updateSkin` writes. -/
structure FontEngineState where
  currentMode : FontMode
  default_size : FontMode → Nat
  font_cache : FontMode → Nat → Option FontHandle
  skinFont : Option FontHandle

/-- `m_font_cache[mode][basesize] = font` on a `std::map`: one entry per
key, later insertions overwrite. -/
def cacheInsert (c : FontMode → Nat → Option FontHandle) (m : FontMode) (s : Nat)
    (f : FontHandle) : FontMode → Nat → Option FontHandle :=
  fun m' s' => if m' = m ∧ s' = s then some f else c m' s'

/-- The state after `m_font_cache[mode][basesize] = font`. -/
def insertState (σ : FontEngineState) (m : FontMode) (s : Nat) (f : FontHandle) :
    FontEngineState :=
  { σ with font_cache := cacheInsert σ.font_cache m s f }

/-- `u32 m_default_size[..]` entry assignment. -/
def tableSet (t : FontMode → Nat) (m : FontMode) (v : Nat) : FontMode → Nat :=
  fun m' => if m' = m then v else t m'

/-- `u32 size = std::floor(RenderingEngine::getDisplayDensity() *
m_settings->getFloat("gui_scaling") * basesize)`: the effective pixel
size, identical in both creation strategies.  The floor of the rational
product is computed on the raw numerators/denominators (`Int.fdiv` is
floor division; the denominators are positive); `effSize_eq_floor` below
proves this equal to `⌊density * scaling * basesize⌋`. -/
def effSize (env : Env) (basesize : Nat) : Nat :=
  let d := env.displayDensity
  let s := env.settingsFloat "gui_scaling"
  ((d.num * s.num * (basesize : Int)).fdiv ((d.den : Int) * (s.den : Int))).toNat

/-- `font_path.find_last_of('.')` on the character list of the path. -/
def lastDotIndex : List Char → Option Nat
  | [] => none
  | c :: rest =>
    match lastDotIndex rest with
    | some i => some (i + 1)
    | none => if c = '.' then some 0 else none

/-- The configured path used by `initSimpleFont`:
`m_settings->get(mode == FM_SimpleMono ? "mono_font_path" : "font_path")`. -/
def simpleFontPath (env : Env) (mode : FontMode) : String :=
  env.settingsGet (if mode = .FM_SimpleMono then "mono_font_path" else "font_path")

/-- `lowercase(font_path.substr(pos_dot))`. -/
def simpleEnding (font_path : String) (pos_dot : Nat) : String :=
  String.mk ((font_path.toList.drop pos_dot).map Char.toLower)

/-- `basename`: the path stripped of a `.xml`/`.png` suffix, or the path
itself otherwise. -/
def simpleBasename (font_path : String) (pos_dot : Nat) : String :=
  if simpleEnding font_path pos_dot = ".xml" ∨ simpleEnding font_path pos_dot = ".png" then
    String.mk (font_path.toList.take pos_dot)
  else font_path

/-- `if (basesize == FONT_SIZE_UNSPECIFIED) basesize = DEFAULT_FONT_SIZE`. -/
def simpleBasesize (basesize0 : Nat) : Nat :=
  if basesize0 = FONT_SIZE_UNSPECIFIED then DEFAULT_FONT_SIZE else basesize0

/-- Conversion of the signed sum `size + offset * sign` to the `unsigned`
that `operator<<` prints (usual C arithmetic conversions, i.e. mod 2^32). -/
def u32wrap (i : Int) : Nat := (i % 4294967296).toNat

/-- `path << basename << "_" << (size + offset * sign) << ext` for
zig-zag counter `z`: `sign = (z & 1) ? -1 : 1`, `offset = z >> 1`. -/
def candFileName (basename : String) (size : Nat) (z : Nat) (ext : String) : String :=
  let sign : Int := if z &&& 1 = 1 then -1 else 1
  let offset : Int := ((z >>> 1 : Nat) : Int)
  basename ++ "_" ++ toString (u32wrap ((size : Int) + offset * sign)) ++ ext

/-- `std::string font_extensions[] = { ".png", ".xml" }`. -/
def font_extensions : List String := [".png", ".xml"]

/-- The inner extension loop at a fixed zig-zag counter `z`: skip
candidates whose path does not exist, `break` on the first that loads. -/
def tryExtensions (env : Env) (basename : String) (size : Nat) (z : Nat) :
    List String → Option FontHandle
  | [] => none
  | ext :: rest =>
    let path := candFileName basename size z ext
    if env.pathExists path then
      match env.envGetFont path with
      | some f => some f
      | none => tryExtensions env basename size z rest
    else tryExtensions env basename size z rest

/-- The outer zig-zag loop: `break` out as soon as the inner loop found a
font. -/
def zigzagLoop (env : Env) (basename : String) (size : Nat) :
    List Nat → Option FontHandle
  | [] => none
  | z :: rest =>
    match tryExtensions env basename size z font_extensions with
    | some f => some f
    | none => zigzagLoop env basename size rest

/-- `for (s32 zoffset = 0; zoffset < MAX_FONT_SIZE_OFFSET * 2; zoffset++)`:
the nearest-matching-scale search of `initSimpleFont`. -/
def zigzagSearch (env : Env) (basename : String) (size : Nat) : Option FontHandle :=
  zigzagLoop env basename size (List.range (MAX_FONT_SIZE_OFFSET * 2))

/-- Outcome of the pure part of `initSimpleFont`: `crash` models the
uncaught `std::out_of_range` from `font_path.substr(npos)` when the path
has no `'.'`; `found f bs` carries the loaded font and the base size it
will be cached under. -/
inductive SimpleInitResult where
  | crash : SimpleInitResult
  | nofont : SimpleInitResult
  | found : FontHandle → Nat → SimpleInitResult
deriving DecidableEq, Repr

/-- The pure computation of `initSimpleFont`: path analysis, the `.ttf`
early return, the zig-zag search, and the final direct-path attempt. -/
def simpleFontLookup (env : Env) (basesize0 : Nat) (mode : FontMode) : SimpleInitResult :=
  let font_path := simpleFontPath env mode
  match lastDotIndex font_path.toList with
  | none => .crash
  | some pos_dot =>
    if simpleEnding font_path pos_dot = ".ttf" then .nofont
    else
      let basename := simpleBasename font_path pos_dot
      let basesize := simpleBasesize basesize0
      let size := effSize env basesize
      match zigzagSearch env basename size with
      | some f => .found f basesize
      | none =>
        if env.pathExists font_path then
          match env.envGetFont font_path with
          | some f => .found f basesize
          | none => .nofont
        else .nofont

/-- `FontEngine::initSimpleFont`: on success insert into the cache under
the (possibly default-substituted) base size; on failure leave the state
untouched; `none` models process termination. -/
def initSimpleFont (env : Env) (σ : FontEngineState) (basesize0 : Nat)
    (mode : FontMode) : Option FontEngineState :=
  match simpleFontLookup env basesize0 mode with
  | .crash => none
  | .nofont => some σ
  | .found f basesize =>
    some { σ with font_cache := cacheInsert σ.font_cache mode basesize f }

/-- The `setting_prefix` switch of `initFont`. -/
def outlinePfx (mode : FontMode) : String :=
  match mode with
  | .FM_Fallback => "fallback_"
  | .FM_Mono => "mono_"
  | .FM_SimpleMono => "mono_"
  | _ => ""

/-- The candidate loop of `initFont`: first successful
`createTTFont(path, size, shadow, shadow_alpha)` wins. -/
def tryTTFPaths (env : Env) (size shadow alpha : Nat) : List String → Option FontHandle
  | [] => none
  | p :: rest =>
    match env.createTTFont p size shadow alpha with
    | some f => some f
    | none => tryTTFPaths env size shadow alpha rest

/-- The pure part of `initFont` past the cache guard: `none` collects the
three `abort()` paths (zero effective size, all candidates failing,
freetype not compiled in). -/
def outlineFontLookup (env : Env) (basesize : Nat) (mode : FontMode) : Option FontHandle :=
  let pfx := outlinePfx mode
  let size := effSize env basesize
  if size = 0 then none
  else
    let font_shadow := env.settingsU16 (pfx ++ "font_shadow")
    let font_shadow_alpha := env.settingsU16 (pfx ++ "font_shadow_alpha")
    let fallback_settings :=
      [env.settingsGet (pfx ++ "font_path"),
       env.settingsGet "fallback_font_path",
       env.settingsGetDefault (pfx ++ "font_path")]
    if env.useFreetype then
      tryTTFPaths env size font_shadow font_shadow_alpha fallback_settings
    else none

/-- `FontEngine::initFont`: early return on a cache hit, otherwise cache
the first candidate that instantiates, `abort()` (`none`) when none does. -/
def initFont (env : Env) (σ : FontEngineState) (basesize : Nat)
    (mode : FontMode) : Option FontEngineState :=
  if (σ.font_cache mode basesize).isSome then some σ
  else
    match outlineFontLookup env basesize mode with
    | some f => some { σ with font_cache := cacheInsert σ.font_cache mode basesize f }
    | none => none

/-- Lines 101–107 of `getFont`: substitute the active mode for
`FM_Unspecified`, downgrade to a simple mode when freetype is disabled. -/
def normMode (currentMode mode : FontMode) : FontMode :=
  if mode = .FM_Unspecified then currentMode
  else if currentMode = .FM_Simple then
    if mode = .FM_Mono ∨ mode = .FM_SimpleMono then .FM_SimpleMono else .FM_Simple
  else mode

/-- Lines 101–111 of `getFont`: the normalized `(mode, font_size)` cache
key — mode normalization first, then the default-size substitution for
`FONT_SIZE_UNSPECIFIED`, read from the normalized mode's table entry. -/
def normalizedKey (σ : FontEngineState) (font_size0 : Nat) (mode0 : FontMode) :
    FontMode × Nat :=
  let mode := normMode σ.currentMode mode0
  (mode, if font_size0 = FONT_SIZE_UNSPECIFIED then σ.default_size mode else font_size0)

/-- The guard of the creation dispatch in `getFont`: a strategy runs
exactly when the normalized key misses the cache. -/
def triggersCreation (σ : FontEngineState) (font_size0 : Nat) (mode0 : FontMode) : Bool :=
  (σ.font_cache (normalizedKey σ font_size0 mode0).1 (normalizedKey σ font_size0 mode0).2).isNone

/-- Result of a `getFont` call: `fatal` models process termination inside
a creation strategy, `ret` carries the returned pointer (possibly null)
and the post-call state. -/
inductive FontCall where
  | fatal : FontCall
  | ret : Option FontHandle → FontEngineState → FontCall

/-- The creation dispatch of `getFont` at the normalized key: on a cache
miss run `initSimpleFont` for the simple modes and `initFont` otherwise;
on a hit do nothing. -/
def getFontStep (env : Env) (σ : FontEngineState) (k : FontMode × Nat) :
    Option FontEngineState :=
  if (σ.font_cache k.1 k.2).isNone then
    if k.1 = .FM_Simple ∨ k.1 = .FM_SimpleMono then initSimpleFont env σ k.2 k.1
    else initFont env σ k.2 k.1
  else some σ

/-- `FontEngine::getFont`: normalize, dispatch a creation strategy on a
cache miss, then re-read the cache at the normalized key. -/
def getFont (env : Env) (σ : FontEngineState) (font_size0 : Nat) (mode0 : FontMode) :
    FontCall :=
  match getFontStep env σ (normalizedKey σ font_size0 mode0) with
  | none => .fatal
  | some σ' =>
    .ret (σ'.font_cache (normalizedKey σ font_size0 mode0).1
      (normalizedKey σ font_size0 mode0).2) σ'

/-- The shared fallback of the metric getters: use the skin's font when
`getFont` returned null. -/
def resolveWithSkin (font : Option FontHandle) (σ : FontEngineState) : Option FontHandle :=
  match font with
  | some f => some f
  | none => σ.skinFont

/-- `FontEngine::getTextHeight`: height of the fixed sample string;
`none` models `FATAL_ERROR_IF` firing (no font and no skin font) or a
fatal `getFont`. -/
def getTextHeight (env : Env) (σ : FontEngineState) (font_size : Nat) (mode : FontMode) :
    Option (Nat × FontEngineState) :=
  match getFont env σ font_size mode with
  | .fatal => none
  | .ret font σ' =>
    match resolveWithSkin font σ' with
    | none => none
    | some f => some (f.sampleHeight, σ')

/-- `FontEngine::getLineHeight`: sample-string height plus the backend's
kerning height, from the identically resolved font. -/
def getLineHeight (env : Env) (σ : FontEngineState) (font_size : Nat) (mode : FontMode) :
    Option (Nat × FontEngineState) :=
  match getFont env σ font_size mode with
  | .fatal => none
  | .ret font σ' =>
    match resolveWithSkin font σ' with
    | none => none
    | some f => some (f.sampleHeight + f.kerningHeight, σ')

/-- `FontEngine::cleanCache`: drop every handle and clear all per-mode
tables. -/
def cleanCache (σ : FontEngineState) : FontEngineState :=
  { σ with font_cache := fun _ _ => none }

/-- The mode/default-size recomputation of `readSettings` (lines 179–191):
with freetype compiled in and enabled, refresh the three outline entries
and derive the active mode from the locale flag; otherwise force
`FM_Simple`.  The `FM_Simple`/`FM_SimpleMono` entries are refreshed
unconditionally. -/
def settingsModeTable (env : Env) (σ : FontEngineState) : FontEngineState :=
  let σ1 :=
    if env.useFreetype && env.freetypeEnabled then
      { σ with
        default_size :=
          tableSet (tableSet (tableSet σ.default_size .FM_Standard
            (env.settingsU16 "font_size")) .FM_Fallback
            (env.settingsU16 "fallback_font_size")) .FM_Mono
            (env.settingsU16 "mono_font_size"),
        currentMode := if env.needsFallbackFont then .FM_Fallback else .FM_Standard }
    else { σ with currentMode := .FM_Simple }
  { σ1 with
    default_size :=
      tableSet (tableSet σ1.default_size .FM_Simple (env.settingsU16 "font_size"))
        .FM_SimpleMono (env.settingsU16 "mono_font_size") }

/-- State right after `cleanCache()` inside `readSettings`. -/
def flushedState (env : Env) (σ : FontEngineState) : FontEngineState :=
  cleanCache (settingsModeTable env σ)

/-- `FontEngine::updateFontCache`: eagerly create only the default font
(`getFont(FONT_SIZE_UNSPECIFIED, FM_Unspecified)`). -/
def updateFontCache (env : Env) (σ : FontEngineState) : Option FontEngineState :=
  match getFont env σ FONT_SIZE_UNSPECIFIED .FM_Unspecified with
  | .fatal => none
  | .ret _ σ' => some σ'

/-- `FontEngine::updateSkin`: fetch the default font, hand it to the skin
when non-null, and `FATAL_ERROR_IF` the skin still has no font. -/
def updateSkin (env : Env) (σ : FontEngineState) : Option FontEngineState :=
  match getFont env σ FONT_SIZE_UNSPECIFIED .FM_Unspecified with
  | .fatal => none
  | .ret font σ' =>
    let σ'' :=
      match font with
      | some f => { σ' with skinFont := some f }
      | none => σ'
    match σ''.skinFont with
    | none => none
    | some _ => some σ''

/-- `FontEngine::readSettings`: recompute mode and default sizes, flush
the cache, then `updateFontCache()` and `updateSkin()`. -/
def readSettings (env : Env) (σ : FontEngineState) : Option FontEngineState :=
  match updateFontCache env (flushedState env σ) with
  | none => none
  | some σ4 => updateSkin env σ4

/-! ## Specification-side definitions (written from the spec's words) -/

/-- Spec side (C1): "the first candidate that both exists and loads ends
the entire search" — first-success over a flat candidate list, where a
candidate that exists but fails to load is skipped. -/
def firstExistingLoadable (env : Env) : List String → Option FontHandle
  | [] => none
  | p :: ps =>
    if env.pathExists p then
      match env.envGetFont p with
      | some f => some f
      | none => firstExistingLoadable env ps
    else firstExistingLoadable env ps

/-- Spec side (C1): the candidate names in the order the claim states
them — counter `z = 0, …, 19`, offset `(−1 if z is odd else +1) × (z >> 1)`
("integer divide by 2"), extensions `.png` then `.xml` innermost, name
`basename + "_" + (S + offset) + extension` (u32 arithmetic). -/
def specCandidateNames (basename : String) (S : Nat) : List String :=
  (List.range 20).flatMap fun z =>
    font_extensions.map fun ext =>
      basename ++ "_" ++ toString (u32wrap ((S : Int) +
        (if z % 2 = 1 then (-1 : Int) else 1) * ((z / 2 : Nat) : Int))) ++ ext

/-- Spec side (C4): "a request of Unspecified becomes the resolver's
current active mode; otherwise, when the current mode is Simple, a
requested Mono or SimpleMono becomes SimpleMono and any other requested
mode becomes Simple". -/
def specNormalizeMode (active requested : FontMode) : FontMode :=
  if requested = .FM_Unspecified then active
  else if active = .FM_Simple then
    if requested = .FM_Mono ∨ requested = .FM_SimpleMono then .FM_SimpleMono
    else .FM_Simple
  else requested

/-- Spec side (C6): the configuration-key prefix — `fallback_` for
Fallback, `mono_` for Mono, empty for Standard. -/
def specModePrefix (mode : FontMode) : String :=
  match mode with
  | .FM_Fallback => "fallback_"
  | .FM_Mono => "mono_"
  | _ => ""

/-- Spec side (C6): the three candidate font paths in the stated order —
(a) the mode-prefixed configured path, (b) the configured
`fallback_font_path`, (c) the compiled-in default of the mode-prefixed
path key. -/
def specOutlinePathCandidates (env : Env) (mode : FontMode) : List String :=
  [env.settingsGet (specModePrefix mode ++ "font_path"),
   env.settingsGet "fallback_font_path",
   env.settingsGetDefault (specModePrefix mode ++ "font_path")]

/-- Spec side (C7): the recomputed active mode — Fallback when the
locale's needs-fallback flag is set and the outline backend is compiled
in and enabled, else Standard; Simple when the backend is unavailable or
disabled. -/
def specActiveMode (env : Env) : FontMode :=
  if env.useFreetype && env.freetypeEnabled then
    if env.needsFallbackFont then .FM_Fallback else .FM_Standard
  else .FM_Simple

/-- Spec side (C7): the default-size table `readSettings` actually
produces: the Simple entries always refreshed from configuration, the
outline entries refreshed only when the outline backend is compiled in
and enabled (otherwise they keep their previous values). -/
def specDefaultTable (env : Env) (σ : FontEngineState) : FontMode → Nat :=
  fun m =>
    match m with
    | .FM_Simple => env.settingsU16 "font_size"
    | .FM_SimpleMono => env.settingsU16 "mono_font_size"
    | .FM_Standard =>
      if env.useFreetype && env.freetypeEnabled then env.settingsU16 "font_size"
      else σ.default_size .FM_Standard
    | .FM_Fallback =>
      if env.useFreetype && env.freetypeEnabled then env.settingsU16 "fallback_font_size"
      else σ.default_size .FM_Fallback
    | .FM_Mono =>
      if env.useFreetype && env.freetypeEnabled then env.settingsU16 "mono_font_size"
      else σ.default_size .FM_Mono
    | .FM_Unspecified => σ.default_size .FM_Unspecified

/-- Spec side (C7): what the eager default-font creation leaves in the
cache — the creation strategy's outcome for the active mode at its
default size. -/
def strategyOutcome (env : Env) (basesize : Nat) (m : FontMode) : Option FontHandle :=
  if m = .FM_Simple ∨ m = .FM_SimpleMono then
    match simpleFontLookup env basesize m with
    | .found f _ => some f
    | _ => none
  else outlineFontLookup env basesize m

/-! ## Concrete environments and states for counterexamples and witnesses -/

/-- A simple-mode environment whose configured font path is a `.ttf`
file and where no asset loads. -/
def envC2 : Env where
  settingsGet := fun k => if k = "font_path" then "foo.ttf" else ""
  settingsGetDefault := fun _ => ""
  settingsU16 := fun _ => 13
  settingsU16_lt := fun _ => (by decide : (13:Nat) < 65536)
  settingsFloat := fun _ => 1
  freetypeEnabled := false
  useFreetype := false
  needsFallbackFont := false
  displayDensity := 1
  pathExists := fun _ => false
  envGetFont := fun _ => none
  createTTFont := fun _ _ _ _ => none

/-- A plain simple-mode state with an empty cache. -/
def σC2 : FontEngineState where
  currentMode := .FM_Simple
  default_size := fun _ => 13
  font_cache := fun _ _ => none
  skinFont := some ⟨0, 10, 2⟩

/-- An environment whose `gui_scaling` is 0, so every effective pixel
size floors to 0. -/
def envC3 : Env where
  settingsGet := fun k => if k = "font_path" then "font.png" else ""
  settingsGetDefault := fun _ => ""
  settingsU16 := fun _ => 13
  settingsU16_lt := fun _ => (by decide : (13:Nat) < 65536)
  settingsFloat := fun _ => 0
  freetypeEnabled := true
  useFreetype := true
  needsFallbackFont := false
  displayDensity := 1
  pathExists := fun _ => false
  envGetFont := fun _ => none
  createTTFont := fun _ _ _ _ => none

/-- Simple-mode state used against `envC3`. -/
def σC3 : FontEngineState where
  currentMode := .FM_Simple
  default_size := fun _ => 13
  font_cache := fun _ _ => none
  skinFont := some ⟨0, 10, 2⟩

/-- Standard-mode state used against `envC3`. -/
def σC3w : FontEngineState where
  currentMode := .FM_Standard
  default_size := fun _ => 13
  font_cache := fun _ _ => none
  skinFont := some ⟨0, 10, 2⟩

/-- An environment whose configured font path contains no `'.'`. -/
def envC5 : Env where
  settingsGet := fun k => if k = "font_path" then "fontfile" else ""
  settingsGetDefault := fun _ => ""
  settingsU16 := fun _ => 13
  settingsU16_lt := fun _ => (by decide : (13:Nat) < 65536)
  settingsFloat := fun _ => 1
  freetypeEnabled := false
  useFreetype := false
  needsFallbackFont := false
  displayDensity := 1
  pathExists := fun _ => false
  envGetFont := fun _ => none
  createTTFont := fun _ _ _ _ => none

/-- A no-freetype environment with a well-formed `font.png` path where no
asset exists at all. -/
def envC7 : Env where
  settingsGet := fun k => if k = "mono_font_path" then "mono.png" else
    if k = "font_path" then "font.png" else ""
  settingsGetDefault := fun _ => ""
  settingsU16 := fun _ => 13
  settingsU16_lt := fun _ => (by decide : (13:Nat) < 65536)
  settingsFloat := fun _ => 1
  freetypeEnabled := false
  useFreetype := false
  needsFallbackFont := false
  displayDensity := 1
  pathExists := fun _ => false
  envGetFont := fun _ => none
  createTTFont := fun _ _ _ _ => none

/-- A state whose stale default-size table holds 42 everywhere. -/
def σC7 : FontEngineState where
  currentMode := .FM_Standard
  default_size := fun _ => 42
  font_cache := fun _ _ => none
  skinFont := some ⟨1, 7, 3⟩

/-- Simple-mode state with an empty cache used against `envC5`/`envC7`. -/
def σC5 : FontEngineState where
  currentMode := .FM_Simple
  default_size := fun _ => 13
  font_cache := fun _ _ => none
  skinFont := some ⟨1, 7, 3⟩

/-- A simple-mode environment where exactly the asset `font_13.png`
exists and loads. -/
def envOkSimple : Env where
  settingsGet := fun k => if k = "mono_font_path" then "mono.png" else
    if k = "font_path" then "font.png" else ""
  settingsGetDefault := fun _ => ""
  settingsU16 := fun _ => 13
  settingsU16_lt := fun _ => (by decide : (13:Nat) < 65536)
  settingsFloat := fun _ => 1
  freetypeEnabled := false
  useFreetype := false
  needsFallbackFont := false
  displayDensity := 1
  pathExists := fun p => if p = "font_13.png" then true else false
  envGetFont := fun p => if p = "font_13.png" then some ⟨5, 11, 4⟩ else none
  createTTFont := fun _ _ _ _ => none

/-- Simple-mode state with an empty cache used against `envOkSimple`. -/
def σSimple : FontEngineState where
  currentMode := .FM_Simple
  default_size := fun _ => 13
  font_cache := fun _ _ => none
  skinFont := some ⟨9, 20, 6⟩

/-- `σSimple` after caching `font_13.png` under `(FM_Simple, 13)`. -/
def σSimpleAfter : FontEngineState :=
  { σSimple with font_cache := cacheInsert σSimple.font_cache .FM_Simple 13 ⟨5, 11, 4⟩ }

/-- A freetype environment where the configured `font_path` candidate
instantiates. -/
def envC6 : Env where
  settingsGet := fun k => if k = "font_path" then "main.ttf" else
    if k = "fallback_font_path" then "fb.ttf" else ""
  settingsGetDefault := fun _ => "def.ttf"
  settingsU16 := fun _ => 13
  settingsU16_lt := fun _ => (by decide : (13:Nat) < 65536)
  settingsFloat := fun _ => 1
  freetypeEnabled := true
  useFreetype := true
  needsFallbackFont := false
  displayDensity := 1
  pathExists := fun _ => false
  envGetFont := fun _ => none
  createTTFont := fun p _ _ _ => if p = "main.ttf" then some ⟨2, 8, 1⟩ else none

/-- Standard-mode state with an empty cache used against `envC6`. -/
def σC6 : FontEngineState where
  currentMode := .FM_Standard
  default_size := fun _ => 13
  font_cache := fun _ _ => none
  skinFont := some ⟨3, 9, 2⟩

/-- An environment with an upper-case `.TTF` configured path in which
every asset path exists and loads — exercising that the `.ttf` early
return skips the search entirely. -/
def envC9 : Env where
  settingsGet := fun k => if k = "font_path" then "Foo.TTF" else ""
  settingsGetDefault := fun _ => ""
  settingsU16 := fun _ => 13
  settingsU16_lt := fun _ => (by decide : (13:Nat) < 65536)
  settingsFloat := fun _ => 1
  freetypeEnabled := false
  useFreetype := false
  needsFallbackFont := false
  displayDensity := 1
  pathExists := fun _ => true
  envGetFont := fun _ => some ⟨7, 5, 2⟩
  createTTFont := fun _ _ _ _ => none

/-- A simple-mode environment where exactly `font_16.png` (the default
base size) exists and loads. -/
def envC10 : Env where
  settingsGet := fun k => if k = "mono_font_path" then "mono.png" else
    if k = "font_path" then "font.png" else ""
  settingsGetDefault := fun _ => ""
  settingsU16 := fun _ => 13
  settingsU16_lt := fun _ => (by decide : (13:Nat) < 65536)
  settingsFloat := fun _ => 1
  freetypeEnabled := false
  useFreetype := false
  needsFallbackFont := false
  displayDensity := 1
  pathExists := fun p => if p = "font_16.png" then true else false
  envGetFont := fun p => if p = "font_16.png" then some ⟨6, 12, 5⟩ else none
  createTTFont := fun _ _ _ _ => none

/-- A state whose default-size table is still the constructor's
`FONT_SIZE_UNSPECIFIED` sentinel in every entry. -/
def σC10 : FontEngineState where
  currentMode := .FM_Simple
  default_size := fun _ => FONT_SIZE_UNSPECIFIED
  font_cache := fun _ _ => none
  skinFont := some ⟨4, 15, 3⟩

/-! ## Helper lemmas -/

/-- `effSize` computes the floor of the rational product
`displayDensity * gui_scaling * basesize`. -/
theorem effSize_eq_floor (env : Env) (bs : Nat) :
    effSize env bs =
      (⌊env.displayDensity * env.settingsFloat "gui_scaling" * (bs : ℚ)⌋).toNat := by
  unfold effSize
  set a := env.displayDensity with ha0
  set b := env.settingsFloat "gui_scaling" with hb0
  have had : ((a.den : ℚ)) ≠ 0 := by exact_mod_cast a.den_ne_zero
  have hbd : ((b.den : ℚ)) ≠ 0 := by exact_mod_cast b.den_ne_zero
  have ha : (a.num : ℚ) = a * (a.den : ℚ) := (div_eq_iff had).mp (Rat.num_div_den a)
  have hbq : (b.num : ℚ) = b * (b.den : ℚ) := (div_eq_iff hbd).mp (Rat.num_div_den b)
  have hb : a * b * (bs : ℚ) =
      ((a.num * b.num * (bs : Int) : Int) : ℚ) / (((a.den * b.den : ℕ) : ℕ) : ℚ) := by
    rw [eq_div_iff (by positivity)]
    push_cast
    rw [ha, hbq]
    ring
  rw [hb, Rat.floor_intCast_div_natCast]
  dsimp only
  rw [show ((a.den : Int) * (b.den : Int)) = ((a.den * b.den : ℕ) : Int) by push_cast; ring]
  rw [Int.fdiv_eq_ediv _ (by positivity)]

/-- First-success search distributes over list append. -/
theorem firstExistingLoadable_append (env : Env) (l1 l2 : List String) :
    firstExistingLoadable env (l1 ++ l2) =
      match firstExistingLoadable env l1 with
      | some f => some f
      | none => firstExistingLoadable env l2 := by
  induction l1 with
  | nil => rfl
  | cons p ps ih =>
    simp only [List.cons_append, firstExistingLoadable]
    by_cases hp : env.pathExists p
    · simp only [hp, if_true]
      cases env.envGetFont p with
      | none => simpa using ih
      | some f => rfl
    · simp only [hp]
      simpa using ih

/-- The candidate file name built by the source's `& 1` / `>> 1`
arithmetic agrees with the spec's odd/even, divide-by-two description. -/
theorem candFileName_eq_spec (basename : String) (S z : Nat) (ext : String) :
    candFileName basename S z ext =
      basename ++ "_" ++ toString (u32wrap ((S : Int) +
        (if z % 2 = 1 then (-1 : Int) else 1) * ((z / 2 : Nat) : Int))) ++ ext := by
  unfold candFileName
  dsimp only
  rw [show ((z >>> 1 : Nat) : Int) * (if z &&& 1 = 1 then (-1 : Int) else 1) =
      (if z % 2 = 1 then (-1 : Int) else 1) * ((z / 2 : Nat) : Int) by
    rw [Nat.and_one_is_mod, Nat.shiftRight_eq_div_pow, pow_one]
    ring]

/-- The nested loop with its double `break` equals first-success over the
flattened per-counter candidate lists. -/
theorem zigzagLoop_eq_first (env : Env) (basename : String) (S : Nat) :
    ∀ zs : List Nat, zigzagLoop env basename S zs =
      firstExistingLoadable env (zs.flatMap fun z =>
        [candFileName basename S z ".png", candFileName basename S z ".xml"]) := by
  intro zs
  induction zs with
  | nil => rfl
  | cons z rest ih =>
    have h2 : tryExtensions env basename S z font_extensions =
        firstExistingLoadable env
          [candFileName basename S z ".png", candFileName basename S z ".xml"] := rfl
    simp only [zigzagLoop, List.flatMap_cons]
    rw [firstExistingLoadable_append, ← h2, ih]

/-! ## Claim theorems -/

/-- C1: the discrete-asset search of `initSimpleFont` tries candidate
asset names in exactly the claimed order — counter `z = 0 … 19`, offset
`(−1 if z odd else +1) × (z >> 1)`, extensions `.png` then `.xml`
innermost, name `basename ++ "_" ++ (S + offset) ++ ext` — and the first
candidate that both exists and loads ends the entire search (both
loops), so at equal magnitude `+k` precedes `−k`, and a `.xml` asset at
the current offset beats anything only reachable at a later counter. -/
theorem initSimpleFont_search_order (env : Env) (basename : String) (S : Nat) :
    zigzagSearch env basename S = firstExistingLoadable env (specCandidateNames basename S) := by
  have hfun : (fun z => [candFileName basename S z ".png", candFileName basename S z ".xml"])
      = (fun z : Nat => font_extensions.map fun ext =>
          basename ++ "_" ++ toString (u32wrap ((S : Int) +
            (if z % 2 = 1 then (-1 : Int) else 1) * ((z / 2 : Nat) : Int))) ++ ext) := by
    funext z
    simp only [font_extensions, List.map_cons, List.map_nil]
    rw [candFileName_eq_spec, candFileName_eq_spec]
  unfold zigzagSearch specCandidateNames
  rw [zigzagLoop_eq_first, show MAX_FONT_SIZE_OFFSET * 2 = 20 from rfl, hfun]

/-- A successful `initSimpleFont` touches only the font cache. -/
theorem initSimpleFont_some_inv (env : Env) (σ : FontEngineState) (b : Nat)
    (m : FontMode) (σ' : FontEngineState) (h : initSimpleFont env σ b m = some σ') :
    σ'.currentMode = σ.currentMode ∧ σ'.default_size = σ.default_size ∧
      σ'.skinFont = σ.skinFont := by
  unfold initSimpleFont at h
  split at h
  · exact absurd h (by simp)
  · cases h; exact ⟨rfl, rfl, rfl⟩
  · cases h; exact ⟨rfl, rfl, rfl⟩

/-- A successful `initFont` touches only the font cache. -/
theorem initFont_some_inv (env : Env) (σ : FontEngineState) (b : Nat)
    (m : FontMode) (σ' : FontEngineState) (h : initFont env σ b m = some σ') :
    σ'.currentMode = σ.currentMode ∧ σ'.default_size = σ.default_size ∧
      σ'.skinFont = σ.skinFont := by
  unfold initFont at h
  split at h
  · cases h; exact ⟨rfl, rfl, rfl⟩
  · split at h
    · cases h; exact ⟨rfl, rfl, rfl⟩
    · exact absurd h (by simp)

/-- A non-fatal creation dispatch touches only the font cache. -/
theorem getFontStep_some_inv (env : Env) (σ : FontEngineState) (k : FontMode × Nat)
    (σ' : FontEngineState) (h : getFontStep env σ k = some σ') :
    σ'.currentMode = σ.currentMode ∧ σ'.default_size = σ.default_size ∧
      σ'.skinFont = σ.skinFont := by
  unfold getFontStep at h
  split at h
  · split at h
    · exact initSimpleFont_some_inv env σ k.2 k.1 σ' h
    · exact initFont_some_inv env σ k.2 k.1 σ' h
  · cases h; exact ⟨rfl, rfl, rfl⟩

/-- A returning `getFont` call: the mode, default-size table and skin are
untouched and the returned pointer is the cache entry at the normalized
key of the post state. -/
theorem getFont_ret_inv (env : Env) (σ : FontEngineState) (fs0 : Nat) (m0 : FontMode)
    (f : Option FontHandle) (σ' : FontEngineState)
    (h : getFont env σ fs0 m0 = .ret f σ') :
    σ'.currentMode = σ.currentMode ∧ σ'.default_size = σ.default_size ∧
      σ'.skinFont = σ.skinFont ∧
      f = σ'.font_cache (normalizedKey σ fs0 m0).1 (normalizedKey σ fs0 m0).2 := by
  unfold getFont at h
  cases hstep : getFontStep env σ (normalizedKey σ fs0 m0) with
  | none =>
    rw [hstep] at h
    dsimp only at h
    exact absurd h (by simp)
  | some σ'' =>
    rw [hstep] at h
    dsimp only at h
    injection h with hf hσ
    subst hσ
    obtain ⟨h1, h2, h3⟩ := getFontStep_some_inv env σ _ σ'' hstep
    exact ⟨h1, h2, h3, hf.symm⟩

/-- The normalized key only depends on the current mode and the
default-size table. -/
theorem normalizedKey_congr (σ σ₁ : FontEngineState)
    (h1 : σ₁.currentMode = σ.currentMode) (h2 : σ₁.default_size = σ.default_size)
    (fs0 : Nat) (m0 : FontMode) :
    normalizedKey σ₁ fs0 m0 = normalizedKey σ fs0 m0 := by
  unfold normalizedKey normMode
  rw [h1, h2]

/-- C4: `getFont` normalizes the requested mode exactly as claimed — an
`FM_Unspecified` request becomes the resolver's current mode; otherwise,
with current mode `FM_Simple`, `FM_Mono`/`FM_SimpleMono` downgrade to
`FM_SimpleMono` and everything else to `FM_Simple` (the downgrade is a
total function, it never fails) — and only after mode normalization is an
`FONT_SIZE_UNSPECIFIED` size replaced by the default-size table entry of
the **normalized** mode. -/
theorem getFont_mode_normalization :
    (∀ active requested : FontMode,
      normMode active requested = specNormalizeMode active requested) ∧
    (∀ (σ : FontEngineState) (m0 : FontMode),
      normalizedKey σ FONT_SIZE_UNSPECIFIED m0 =
        (normMode σ.currentMode m0, σ.default_size (normMode σ.currentMode m0))) := by
  constructor
  · intro a r
    cases a <;> cases r <;> rfl
  · intro σ m0
    rfl

/-- C2 counterexample: with a `.ttf` configured path in simple mode the
first `getFont(10, FM_Simple)` creates nothing and leaves the state
unchanged, so the second identical call finds the normalized key still
missing and dispatches the creation strategy again — it is not a pure
cache lookup. -/
theorem getFont_repeat_not_pure_lookup_cex :
    getFont envC2 σC2 10 .FM_Simple = .ret none σC2 ∧
    triggersCreation σC2 10 .FM_Simple = true := ⟨rfl, rfl⟩

/-- After a call that returned a non-null handle, an identical request
hits the cache: same result, unchanged state, no creation dispatch. -/
theorem getFont_rehit (env : Env) (σ : FontEngineState) (fs0 : Nat)
    (m0 : FontMode) (f : FontHandle) (σ₁ : FontEngineState)
    (h : getFont env σ fs0 m0 = .ret (some f) σ₁) :
    getFont env σ₁ fs0 m0 = .ret (some f) σ₁ ∧ triggersCreation σ₁ fs0 m0 = false := by
  obtain ⟨hc, hd, _, hf⟩ := getFont_ret_inv env σ fs0 m0 (some f) σ₁ h
  have hk := normalizedKey_congr σ σ₁ hc hd fs0 m0
  have hcache : σ₁.font_cache (normalizedKey σ₁ fs0 m0).1 (normalizedKey σ₁ fs0 m0).2
      = some f := by rw [hk, ← hf]
  constructor
  · unfold getFont
    rw [show getFontStep env σ₁ (normalizedKey σ₁ fs0 m0) = some σ₁ by
      unfold getFontStep
      rw [hcache]
      rfl]
    dsimp only
    rw [hcache]
  · unfold triggersCreation
    rw [hcache]
    rfl

/-- C2 (amended): if a `getFont` call returns a non-null handle, a second
call with identical arguments is a pure cache lookup: it returns the same
handle, leaves the state unchanged, and does not dispatch a creation
strategy (the per-mode cache, keyed by size, holds one entry per key by
construction). -/
theorem getFont_idempotent_on_success (env : Env) (σ : FontEngineState) (fs0 : Nat)
    (m0 : FontMode) (f : FontHandle) (σ₁ : FontEngineState)
    (h : getFont env σ fs0 m0 = .ret (some f) σ₁) :
    getFont env σ₁ fs0 m0 = .ret (some f) σ₁ ∧ triggersCreation σ₁ fs0 m0 = false :=
  getFont_rehit env σ fs0 m0 f σ₁ h

/-- C2 witness: a concrete successful call followed by a pure-lookup
repeat. -/
theorem getFont_idempotent_on_success_witness :
    getFont envOkSimple σSimple 13 .FM_Simple = .ret (some ⟨5, 11, 4⟩) σSimpleAfter ∧
    (getFont envOkSimple σSimpleAfter 13 .FM_Simple = .ret (some ⟨5, 11, 4⟩) σSimpleAfter ∧
      triggersCreation σSimpleAfter 13 .FM_Simple = false) :=
  ⟨rfl, getFont_idempotent_on_success envOkSimple σSimple 13 .FM_Simple ⟨5, 11, 4⟩
    σSimpleAfter rfl⟩

/-- On a cache miss in a simple mode, `getFont` is determined by the pure
outcome of `initSimpleFont`. -/
theorem getFont_simple_dispatch (env : Env) (σ : FontEngineState) (fs0 : Nat)
    (m0 : FontMode)
    (hm : (normalizedKey σ fs0 m0).1 = .FM_Simple ∨
      (normalizedKey σ fs0 m0).1 = .FM_SimpleMono)
    (hmiss : σ.font_cache (normalizedKey σ fs0 m0).1 (normalizedKey σ fs0 m0).2 = none) :
    getFont env σ fs0 m0 =
      match simpleFontLookup env (normalizedKey σ fs0 m0).2 (normalizedKey σ fs0 m0).1 with
      | .crash => .fatal
      | .nofont => .ret none σ
      | .found f bs =>
        .ret ((cacheInsert σ.font_cache (normalizedKey σ fs0 m0).1 bs f)
            (normalizedKey σ fs0 m0).1 (normalizedKey σ fs0 m0).2)
          { σ with font_cache := cacheInsert σ.font_cache (normalizedKey σ fs0 m0).1 bs f } := by
  unfold getFont getFontStep
  rw [hmiss]
  simp only [Option.isNone_none, if_true]
  rw [if_pos hm]
  unfold initSimpleFont
  cases hsl : simpleFontLookup env (normalizedKey σ fs0 m0).2 (normalizedKey σ fs0 m0).1 with
  | crash => rfl
  | nofont =>
    dsimp only
    rw [hmiss]
  | found f bs => rfl

/-- A `found` outcome of the simple lookup always carries the
default-substituted base size. -/
theorem simpleFontLookup_found_bs (env : Env) (b : Nat) (m : FontMode)
    (f : FontHandle) (bs : Nat) (h : simpleFontLookup env b m = .found f bs) :
    bs = simpleBasesize b := by
  unfold simpleFontLookup at h
  dsimp only at h
  split at h
  · exact absurd h (by simp)
  · split at h
    · exact absurd h (by simp)
    · split at h
      · injection h with h1 h2
        exact h2.symm
      · split at h
        · split at h
          · injection h with h1 h2
            exact h2.symm
          · exact absurd h (by simp)
        · exact absurd h (by simp)

/-- C3 counterexample: in simple mode an effective pixel size of 0 does
not trigger the fatal path — with no matching assets the call simply
returns a null handle and leaves the state unchanged. -/
theorem zero_size_simple_no_abort_cex :
    effSize envC3 10 = 0 ∧ getFont envC3 σC3 10 .FM_Simple = .ret none σC3 := ⟨rfl, rfl⟩

/-- C3 (amended): a zero effective pixel size triggers the fatal path
exactly when the request is dispatched to the outline strategy (normalized
mode outside `FM_Simple`/`FM_SimpleMono` and a cache miss); the
discrete-asset strategy does not abort on a zero size. -/
theorem zero_size_outline_fatal (env : Env) (σ : FontEngineState) (fs0 : Nat)
    (m0 : FontMode)
    (hm1 : (normalizedKey σ fs0 m0).1 ≠ .FM_Simple)
    (hm2 : (normalizedKey σ fs0 m0).1 ≠ .FM_SimpleMono)
    (hmiss : σ.font_cache (normalizedKey σ fs0 m0).1 (normalizedKey σ fs0 m0).2 = none)
    (hzero : effSize env (normalizedKey σ fs0 m0).2 = 0) :
    getFont env σ fs0 m0 = .fatal := by
  have hstep : getFontStep env σ (normalizedKey σ fs0 m0) = none := by
    unfold getFontStep
    rw [hmiss]
    simp only [Option.isNone_none, if_true]
    rw [if_neg (fun hc => hc.elim hm1 hm2)]
    unfold initFont
    rw [hmiss]
    simp only [Option.isSome_none, Bool.false_eq_true, if_false]
    rw [show outlineFontLookup env (normalizedKey σ fs0 m0).2 (normalizedKey σ fs0 m0).1
        = none by
      unfold outlineFontLookup
      dsimp only
      rw [if_pos hzero]]
  unfold getFont
  rw [hstep]

/-- C3 witness: a Standard-mode request at effective size 0 is fatal. -/
theorem zero_size_outline_fatal_witness :
    (normalizedKey σC3w 10 .FM_Standard).1 ≠ .FM_Simple ∧
    (normalizedKey σC3w 10 .FM_Standard).1 ≠ .FM_SimpleMono ∧
    σC3w.font_cache (normalizedKey σC3w 10 .FM_Standard).1
      (normalizedKey σC3w 10 .FM_Standard).2 = none ∧
    effSize envC3 (normalizedKey σC3w 10 .FM_Standard).2 = 0 ∧
    getFont envC3 σC3w 10 .FM_Standard = .fatal :=
  ⟨by decide, by decide, rfl, rfl,
    zero_size_outline_fatal envC3 σC3w 10 .FM_Standard (by decide) (by decide) rfl rfl⟩

/-- C9: in a simple mode, when the configured path's suffix from its last
`'.'` lowercases to `".ttf"`, the discrete strategy returns immediately —
no zig-zag search, no direct-path load, no cache insertion (the state is
returned unchanged, whatever assets exist) — and `getFont` returns null. -/
theorem getFont_simple_ttf_skip (env : Env) (σ : FontEngineState) (fs0 : Nat)
    (m0 : FontMode) (p : Nat)
    (hm : (normalizedKey σ fs0 m0).1 = .FM_Simple ∨
      (normalizedKey σ fs0 m0).1 = .FM_SimpleMono)
    (hmiss : σ.font_cache (normalizedKey σ fs0 m0).1 (normalizedKey σ fs0 m0).2 = none)
    (hdot : lastDotIndex (simpleFontPath env (normalizedKey σ fs0 m0).1).toList = some p)
    (httf : simpleEnding (simpleFontPath env (normalizedKey σ fs0 m0).1) p = ".ttf") :
    getFont env σ fs0 m0 = .ret none σ := by
  rw [getFont_simple_dispatch env σ fs0 m0 hm hmiss]
  rw [show simpleFontLookup env (normalizedKey σ fs0 m0).2 (normalizedKey σ fs0 m0).1
      = .nofont by
    unfold simpleFontLookup
    dsimp only
    rw [hdot]
    dsimp only
    rw [if_pos httf]]

/-- C9 witness: path `"Foo.TTF"` in an environment where every asset
exists and loads — the call still yields null without caching. -/
theorem getFont_simple_ttf_skip_witness :
    (normalizedKey σC2 10 .FM_Simple).1 = .FM_Simple ∧
    σC2.font_cache (normalizedKey σC2 10 .FM_Simple).1
      (normalizedKey σC2 10 .FM_Simple).2 = none ∧
    lastDotIndex (simpleFontPath envC9 (normalizedKey σC2 10 .FM_Simple).1).toList = some 3 ∧
    simpleEnding (simpleFontPath envC9 (normalizedKey σC2 10 .FM_Simple).1) 3 = ".ttf" ∧
    getFont envC9 σC2 10 .FM_Simple = .ret none σC2 :=
  ⟨rfl, rfl, rfl, rfl,
    getFont_simple_ttf_skip envC9 σC2 10 .FM_Simple 3 (Or.inl rfl) rfl rfl rfl⟩

/-- C5 counterexample: a configured font path without any `'.'` makes the
discrete-asset strategy terminate the process (`substr(npos)` raises an
uncaught `std::out_of_range`), contradicting "never aborts". -/
theorem simple_dotless_path_fatal_cex :
    getFont envC5 σC5 10 .FM_Simple = .fatal := rfl

/-- C5 (amended): provided the configured font path contains a `'.'`
(a dotless path faults in the suffix extraction and terminates the
process) and its suffix is not `".ttf"`, when neither the zig-zag search
nor the final direct load of the unmodified configured path yields a
font, the discrete-asset strategy inserts no cache entry (the state is
unchanged), `getFont` returns null rather than aborting, and the
normalized key still misses, so a subsequent identical request dispatches
the creation strategy again instead of hitting a cached negative
result. -/
theorem getFont_simple_failure_no_cache (env : Env) (σ : FontEngineState) (fs0 : Nat)
    (m0 : FontMode) (p : Nat)
    (hm : (normalizedKey σ fs0 m0).1 = .FM_Simple ∨
      (normalizedKey σ fs0 m0).1 = .FM_SimpleMono)
    (hmiss : σ.font_cache (normalizedKey σ fs0 m0).1 (normalizedKey σ fs0 m0).2 = none)
    (hdot : lastDotIndex (simpleFontPath env (normalizedKey σ fs0 m0).1).toList = some p)
    (httf : simpleEnding (simpleFontPath env (normalizedKey σ fs0 m0).1) p ≠ ".ttf")
    (hsearch : zigzagSearch env
      (simpleBasename (simpleFontPath env (normalizedKey σ fs0 m0).1) p)
      (effSize env (simpleBasesize (normalizedKey σ fs0 m0).2)) = none)
    (hdirect : env.pathExists (simpleFontPath env (normalizedKey σ fs0 m0).1) = false ∨
      env.envGetFont (simpleFontPath env (normalizedKey σ fs0 m0).1) = none) :
    getFont env σ fs0 m0 = .ret none σ ∧ triggersCreation σ fs0 m0 = true := by
  have hsl : simpleFontLookup env (normalizedKey σ fs0 m0).2 (normalizedKey σ fs0 m0).1
      = .nofont := by
    unfold simpleFontLookup
    dsimp only
    rw [hdot]
    dsimp only
    rw [if_neg httf, hsearch]
    cases hdirect with
    | inl hpe => simp only [hpe, Bool.false_eq_true, if_false]
    | inr hgf =>
      cases hpe : env.pathExists (simpleFontPath env (normalizedKey σ fs0 m0).1) with
      | false => simp only [Bool.false_eq_true, if_false]
      | true =>
        simp only [if_true]
        rw [hgf]
  constructor
  · rw [getFont_simple_dispatch env σ fs0 m0 hm hmiss, hsl]
  · unfold triggersCreation
    rw [hmiss]
    rfl

/-- C5 witness: simple mode, path `"font.png"`, no asset anywhere — null
result, unchanged state, and the key still misses for the retry. -/
theorem getFont_simple_failure_no_cache_witness :
    (normalizedKey σC5 10 .FM_Simple).1 = .FM_Simple ∧
    σC5.font_cache (normalizedKey σC5 10 .FM_Simple).1
      (normalizedKey σC5 10 .FM_Simple).2 = none ∧
    lastDotIndex (simpleFontPath envC7 (normalizedKey σC5 10 .FM_Simple).1).toList = some 4 ∧
    simpleEnding (simpleFontPath envC7 (normalizedKey σC5 10 .FM_Simple).1) 4 ≠ ".ttf" ∧
    zigzagSearch envC7
      (simpleBasename (simpleFontPath envC7 (normalizedKey σC5 10 .FM_Simple).1) 4)
      (effSize envC7 (simpleBasesize (normalizedKey σC5 10 .FM_Simple).2)) = none ∧
    (getFont envC7 σC5 10 .FM_Simple = .ret none σC5 ∧
      triggersCreation σC5 10 .FM_Simple = true) :=
  ⟨rfl, rfl, rfl, by decide, rfl,
    getFont_simple_failure_no_cache envC7 σC5 10 .FM_Simple 4 (Or.inl rfl) rfl rfl
      (by decide) rfl (Or.inl rfl)⟩

/-- C10: a simple-mode `getFont` with the `FONT_SIZE_UNSPECIFIED` size
request, whose normalized mode's default-size entry is itself the
sentinel, substitutes `DEFAULT_FONT_SIZE` inside the strategy and, on a
successful load, caches the handle under that substituted key — yet the
final lookup still uses the sentinel key and returns null despite the
handle just cached. -/
theorem getFont_unspecified_size_mismatch (env : Env) (σ : FontEngineState)
    (m0 : FontMode) (f : FontHandle) (bs : Nat)
    (hm : normMode σ.currentMode m0 = .FM_Simple ∨
      normMode σ.currentMode m0 = .FM_SimpleMono)
    (hdef : σ.default_size (normMode σ.currentMode m0) = FONT_SIZE_UNSPECIFIED)
    (hmiss : σ.font_cache (normMode σ.currentMode m0) FONT_SIZE_UNSPECIFIED = none)
    (hfound : simpleFontLookup env FONT_SIZE_UNSPECIFIED (normMode σ.currentMode m0)
      = .found f bs) :
    bs = DEFAULT_FONT_SIZE ∧
    getFont env σ FONT_SIZE_UNSPECIFIED m0 =
      .ret none { σ with
        font_cache := cacheInsert σ.font_cache (normMode σ.currentMode m0) bs f } ∧
    cacheInsert σ.font_cache (normMode σ.currentMode m0) bs f
      (normMode σ.currentMode m0) DEFAULT_FONT_SIZE = some f := by
  have hbs : bs = DEFAULT_FONT_SIZE :=
    simpleFontLookup_found_bs env FONT_SIZE_UNSPECIFIED _ f bs hfound
  have hkey : normalizedKey σ FONT_SIZE_UNSPECIFIED m0 =
      (normMode σ.currentMode m0, FONT_SIZE_UNSPECIFIED) := by
    unfold normalizedKey
    dsimp only
    rw [if_pos rfl, hdef]
  refine ⟨hbs, ?_, ?_⟩
  · rw [getFont_simple_dispatch env σ FONT_SIZE_UNSPECIFIED m0
      (by rw [hkey]; exact hm) (by rw [hkey]; exact hmiss)]
    rw [hkey]
    dsimp only
    rw [hfound]
    dsimp only
    simp only [cacheInsert]
    rw [if_neg (show ¬(True ∧ FONT_SIZE_UNSPECIFIED = bs) from fun hc => by
      rw [hbs] at hc
      exact absurd hc.2 (by decide)), hmiss]
  · simp only [cacheInsert]
    rw [if_pos ⟨trivial, hbs.symm⟩]

/-- C10 witness: defaults table still at the sentinel, `font_16.png`
present — the handle is cached under 16 while the call returns null. -/
theorem getFont_unspecified_size_mismatch_witness :
    normMode σC10.currentMode .FM_Simple = .FM_Simple ∧
    σC10.default_size (normMode σC10.currentMode .FM_Simple) = FONT_SIZE_UNSPECIFIED ∧
    σC10.font_cache (normMode σC10.currentMode .FM_Simple) FONT_SIZE_UNSPECIFIED = none ∧
    simpleFontLookup envC10 FONT_SIZE_UNSPECIFIED (normMode σC10.currentMode .FM_Simple)
      = .found ⟨6, 12, 5⟩ 16 ∧
    ((16 : Nat) = DEFAULT_FONT_SIZE ∧
      getFont envC10 σC10 FONT_SIZE_UNSPECIFIED .FM_Simple =
        .ret none { σC10 with
          font_cache := cacheInsert σC10.font_cache
            (normMode σC10.currentMode .FM_Simple) 16 ⟨6, 12, 5⟩ } ∧
      cacheInsert σC10.font_cache (normMode σC10.currentMode .FM_Simple) 16 ⟨6, 12, 5⟩
        (normMode σC10.currentMode .FM_Simple) DEFAULT_FONT_SIZE = some ⟨6, 12, 5⟩) :=
  ⟨rfl, rfl, rfl, rfl,
    getFont_unspecified_size_mismatch envC10 σC10 .FM_Simple ⟨6, 12, 5⟩ 16
      (Or.inl rfl) rfl rfl rfl⟩

/-- C6: on a cache miss with nonzero effective size, the outline strategy
tries exactly the three claimed candidate paths in order — (a) the
mode-prefixed configured path, (b) the configured `fallback_font_path`,
(c) the compiled-in default of the mode-prefixed key — instantiating each
at the effective pixel size with the mode-prefixed shadow parameters;
the first success is cached under `(mode, requested size)` and returned,
and if all three fail, or freetype is not compiled in at all, the
strategy is fatal. -/
theorem initFont_outline_candidates (env : Env) (σ : FontEngineState) (basesize : Nat)
    (mode : FontMode)
    (hm : mode = .FM_Standard ∨ mode = .FM_Fallback ∨ mode = .FM_Mono)
    (hmiss : σ.font_cache mode basesize = none)
    (hsz : effSize env basesize ≠ 0) :
    initFont env σ basesize mode =
      match (if env.useFreetype then
          tryTTFPaths env (effSize env basesize)
            (env.settingsU16 (specModePrefix mode ++ "font_shadow"))
            (env.settingsU16 (specModePrefix mode ++ "font_shadow_alpha"))
            (specOutlinePathCandidates env mode)
        else none) with
      | some f => some { σ with font_cache := cacheInsert σ.font_cache mode basesize f }
      | none => none := by
  have hpfx : outlinePfx mode = specModePrefix mode := by
    rcases hm with h | h | h <;> rw [h] <;> rfl
  unfold initFont
  rw [hmiss]
  simp only [Option.isSome_none, Bool.false_eq_true, if_false]
  unfold outlineFontLookup
  dsimp only
  rw [if_neg hsz, hpfx]
  unfold specOutlinePathCandidates
  rfl

/-- C6 witness: Standard mode, freetype on, the first candidate
(`main.ttf`) instantiates and is cached under the requested size. -/
theorem initFont_outline_candidates_witness :
    σC6.font_cache .FM_Standard 13 = none ∧
    effSize envC6 13 ≠ 0 ∧
    initFont envC6 σC6 13 .FM_Standard =
      match (if envC6.useFreetype then
          tryTTFPaths envC6 (effSize envC6 13)
            (envC6.settingsU16 (specModePrefix .FM_Standard ++ "font_shadow"))
            (envC6.settingsU16 (specModePrefix .FM_Standard ++ "font_shadow_alpha"))
            (specOutlinePathCandidates envC6 .FM_Standard)
        else none) with
      | some f => some { σC6 with font_cache := cacheInsert σC6.font_cache .FM_Standard 13 f }
      | none => none :=
  ⟨rfl, by decide,
    initFont_outline_candidates envC6 σC6 13 .FM_Standard (Or.inl rfl) rfl (by decide)⟩

/-- C8: `getLineHeight` returns `getTextHeight` plus the kerning height
of the identically resolved font — the font `getFont` yields for the
same `(size, mode)`, or the skin's font when that is null. -/
theorem getLineHeight_textHeight_relation (env : Env) (σ : FontEngineState)
    (fs0 : Nat) (m0 : FontMode) (fopt : Option FontHandle) (σ' : FontEngineState)
    (φ : FontHandle)
    (h : getFont env σ fs0 m0 = .ret fopt σ')
    (hφ : resolveWithSkin fopt σ' = some φ) :
    getTextHeight env σ fs0 m0 = some (φ.sampleHeight, σ') ∧
    getLineHeight env σ fs0 m0 = some (φ.sampleHeight + φ.kerningHeight, σ') := by
  unfold getTextHeight getLineHeight
  constructor
  · rw [h]
    dsimp only
    rw [hφ]
  · rw [h]
    dsimp only
    rw [hφ]

/-- C8 witness: the cached `font_13.png` handle gives text height 11 and
line height 11 + 4. -/
theorem getLineHeight_textHeight_relation_witness :
    getFont envOkSimple σSimple 13 .FM_Simple = .ret (some ⟨5, 11, 4⟩) σSimpleAfter ∧
    resolveWithSkin (some ⟨5, 11, 4⟩) σSimpleAfter = some ⟨5, 11, 4⟩ ∧
    (getTextHeight envOkSimple σSimple 13 .FM_Simple = some (11, σSimpleAfter) ∧
      getLineHeight envOkSimple σSimple 13 .FM_Simple = some (11 + 4, σSimpleAfter)) :=
  ⟨rfl, rfl, getLineHeight_textHeight_relation envOkSimple σSimple 13 .FM_Simple
    (some ⟨5, 11, 4⟩) σSimpleAfter ⟨5, 11, 4⟩ rfl rfl⟩


/-- A u16-valued setting can never be the size sentinel. -/
theorem u16_ne_unspec (env : Env) (k : String) :
    env.settingsU16 k ≠ FONT_SIZE_UNSPECIFIED := by
  intro hk
  have hlt := env.settingsU16_lt k
  rw [hk] at hlt
  exact absurd hlt (by decide)

/-- After the flush inside `readSettings` the current mode is the
recomputed active mode. -/
theorem flushed_mode (env : Env) (σ : FontEngineState) :
    (flushedState env σ).currentMode = specActiveMode env := by
  unfold flushedState cleanCache settingsModeTable specActiveMode
  cases hft : env.useFreetype && env.freetypeEnabled <;> rfl

/-- After the flush inside `readSettings` the default-size table is the
recomputed table. -/
theorem flushed_table (env : Env) (σ : FontEngineState) :
    (flushedState env σ).default_size = specDefaultTable env σ := by
  funext m
  unfold flushedState cleanCache settingsModeTable specDefaultTable tableSet
  cases hft : env.useFreetype && env.freetypeEnabled <;> cases m <;> rfl

/-- The recomputed active mode is Simple, Standard or Fallback. -/
theorem specActiveMode_cases (env : Env) :
    specActiveMode env = .FM_Simple ∨ specActiveMode env = .FM_Standard ∨
      specActiveMode env = .FM_Fallback := by
  unfold specActiveMode
  cases env.useFreetype && env.freetypeEnabled
  · left; rfl
  · cases env.needsFallbackFont
    · right; left; rfl
    · right; right; rfl

/-- An outline active mode implies the backend is compiled in and
enabled. -/
theorem specActiveMode_outline_ft (env : Env)
    (h : specActiveMode env = .FM_Standard ∨ specActiveMode env = .FM_Fallback) :
    (env.useFreetype && env.freetypeEnabled) = true := by
  unfold specActiveMode at h
  cases hft : env.useFreetype && env.freetypeEnabled
  · rw [hft] at h
    simp only [Bool.false_eq_true, if_false] at h
    rcases h with h | h <;> exact absurd h (by decide)
  · rfl

/-- On a cache miss outside the simple modes, `getFont` is determined by
the pure outcome of `initFont`. -/
theorem getFont_outline_dispatch (env : Env) (σ : FontEngineState) (fs0 : Nat)
    (m0 : FontMode)
    (hm1 : (normalizedKey σ fs0 m0).1 ≠ .FM_Simple)
    (hm2 : (normalizedKey σ fs0 m0).1 ≠ .FM_SimpleMono)
    (hmiss : σ.font_cache (normalizedKey σ fs0 m0).1 (normalizedKey σ fs0 m0).2 = none) :
    getFont env σ fs0 m0 =
      match outlineFontLookup env (normalizedKey σ fs0 m0).2 (normalizedKey σ fs0 m0).1 with
      | some f =>
        .ret (some f) (insertState σ (normalizedKey σ fs0 m0).1 (normalizedKey σ fs0 m0).2 f)
      | none => .fatal := by
  unfold getFont getFontStep
  rw [hmiss]
  simp only [Option.isNone_none, if_true]
  rw [if_neg (fun hc => hc.elim hm1 hm2)]
  unfold initFont
  rw [hmiss]
  simp only [Option.isSome_none, Bool.false_eq_true, if_false]
  cases ho : outlineFontLookup env (normalizedKey σ fs0 m0).2 (normalizedKey σ fs0 m0).1 with
  | none => rfl
  | some f =>
    dsimp only
    simp [cacheInsert, insertState]

/-- The eager default-font request from a flushed state: either fatal, or
a null result with unchanged state and a failed strategy outcome, or a
handle cached exactly at `(currentMode, its default size)` matching the
strategy outcome. -/
theorem default_request_run (env : Env) (σ3 : FontEngineState)
    (hcache : σ3.font_cache = fun _ _ => none)
    (hds : σ3.default_size σ3.currentMode ≠ FONT_SIZE_UNSPECIFIED) :
    getFont env σ3 FONT_SIZE_UNSPECIFIED .FM_Unspecified = .fatal ∨
    (getFont env σ3 FONT_SIZE_UNSPECIFIED .FM_Unspecified = .ret none σ3 ∧
      strategyOutcome env (σ3.default_size σ3.currentMode) σ3.currentMode = none) ∨
    (∃ f, getFont env σ3 FONT_SIZE_UNSPECIFIED .FM_Unspecified =
        .ret (some f) (insertState σ3 σ3.currentMode (σ3.default_size σ3.currentMode) f) ∧
      strategyOutcome env (σ3.default_size σ3.currentMode) σ3.currentMode = some f) := by
  have hkey : normalizedKey σ3 FONT_SIZE_UNSPECIFIED .FM_Unspecified =
      (σ3.currentMode, σ3.default_size σ3.currentMode) := by
    unfold normalizedKey normMode
    dsimp only
    rw [if_pos rfl, if_pos rfl]
  have hmiss : σ3.font_cache (normalizedKey σ3 FONT_SIZE_UNSPECIFIED .FM_Unspecified).1
      (normalizedKey σ3 FONT_SIZE_UNSPECIFIED .FM_Unspecified).2 = none := by
    rw [hkey, hcache]
  by_cases hsm : σ3.currentMode = .FM_Simple ∨ σ3.currentMode = .FM_SimpleMono
  · have hdisp := getFont_simple_dispatch env σ3 FONT_SIZE_UNSPECIFIED .FM_Unspecified
      (by rw [hkey]; exact hsm) hmiss
    rw [hkey] at hdisp
    dsimp only at hdisp
    cases hsl : simpleFontLookup env (σ3.default_size σ3.currentMode) σ3.currentMode with
    | crash =>
      left
      rw [hdisp, hsl]
    | nofont =>
      right; left
      refine ⟨by rw [hdisp, hsl], ?_⟩
      unfold strategyOutcome
      rw [if_pos hsm, hsl]
    | found f bs =>
      have hbs : bs = σ3.default_size σ3.currentMode := by
        rw [simpleFontLookup_found_bs env _ _ f bs hsl]
        unfold simpleBasesize
        rw [if_neg hds]
      right; right
      refine ⟨f, ?_, ?_⟩
      · rw [hdisp, hsl]
        dsimp only
        rw [hbs]
        simp [cacheInsert, insertState]
      · unfold strategyOutcome
        rw [if_pos hsm, hsl]
  · push_neg at hsm
    have hdisp := getFont_outline_dispatch env σ3 FONT_SIZE_UNSPECIFIED .FM_Unspecified
      (by rw [hkey]; exact hsm.1) (by rw [hkey]; exact hsm.2) hmiss
    rw [hkey] at hdisp
    dsimp only at hdisp
    cases ho : outlineFontLookup env (σ3.default_size σ3.currentMode) σ3.currentMode with
    | none =>
      left
      rw [hdisp, ho]
    | some f =>
      right; right
      refine ⟨f, ?_, ?_⟩
      · rw [hdisp, ho]
      · unfold strategyOutcome
        rw [if_neg (fun hc => hc.elim hsm.1 hsm.2), ho]

/-- C7 (amended): a successful `readSettings` recomputes the active mode
from backend availability and the locale flag, recomputes the
default-size table (all entries when the outline backend is enabled,
otherwise only the Simple/SimpleMono entries, the outline entries keeping
their previous values), flushes every cache entry in every mode, and
eagerly creates only the active mode's default-size font: afterwards any
cache entry other than that default key is absent (so it is recreated
lazily on the next request), and the default entry holds exactly the
creation strategy's outcome. -/
theorem readSettings_effect (env : Env) (σ σ' : FontEngineState)
    (h : readSettings env σ = some σ') :
    σ'.currentMode = specActiveMode env ∧
    σ'.default_size = specDefaultTable env σ ∧
    (∀ m s, (σ'.font_cache m s).isSome = true →
      m = specActiveMode env ∧ s = specDefaultTable env σ (specActiveMode env)) ∧
    σ'.font_cache (specActiveMode env) (specDefaultTable env σ (specActiveMode env)) =
      strategyOutcome env (specDefaultTable env σ (specActiveMode env))
        (specActiveMode env) := by
  have hmode3 : (flushedState env σ).currentMode = specActiveMode env := flushed_mode env σ
  have htab3 : (flushedState env σ).default_size = specDefaultTable env σ := flushed_table env σ
  have hcache3 : (flushedState env σ).font_cache = fun _ _ => none := rfl
  have hds : (flushedState env σ).default_size (flushedState env σ).currentMode ≠
      FONT_SIZE_UNSPECIFIED := by
    rw [htab3, hmode3]
    rcases specActiveMode_cases env with hcm | hcm | hcm
    · rw [hcm]
      exact u16_ne_unspec env "font_size"
    · rw [hcm]
      have hft := specActiveMode_outline_ft env (Or.inl hcm)
      show (if env.useFreetype && env.freetypeEnabled then env.settingsU16 "font_size"
        else σ.default_size .FM_Standard) ≠ FONT_SIZE_UNSPECIFIED
      rw [hft, if_pos rfl]
      exact u16_ne_unspec env "font_size"
    · rw [hcm]
      have hft := specActiveMode_outline_ft env (Or.inr hcm)
      show (if env.useFreetype && env.freetypeEnabled then
          env.settingsU16 "fallback_font_size"
        else σ.default_size .FM_Fallback) ≠ FONT_SIZE_UNSPECIFIED
      rw [hft, if_pos rfl]
      exact u16_ne_unspec env "fallback_font_size"
  unfold readSettings updateFontCache at h
  rcases default_request_run env (flushedState env σ) hcache3 hds with
    hrun | ⟨hrun, hout⟩ | ⟨f, hrun, hout⟩
  · rw [hrun] at h
    exact absurd h (by simp)
  · rw [hrun] at h
    dsimp only at h
    unfold updateSkin at h
    rw [hrun] at h
    dsimp only at h
    cases hsk : (flushedState env σ).skinFont with
    | none =>
      rw [hsk] at h
      exact absurd h (by simp)
    | some s =>
      rw [hsk] at h
      dsimp only at h
      injection h with h'
      subst h'
      refine ⟨hmode3, htab3, ?_, ?_⟩
      · intro m s hms
        rw [hcache3] at hms
        simp at hms
      · rw [hcache3]
        rw [hmode3, htab3] at hout
        exact hout.symm
  · rw [hrun] at h
    dsimp only at h
    have hre := getFont_rehit env (flushedState env σ) FONT_SIZE_UNSPECIFIED
      .FM_Unspecified f _ hrun
    unfold updateSkin at h
    rw [hre.1] at h
    dsimp only at h
    injection h with h'
    subst h'
    refine ⟨hmode3, htab3, ?_, ?_⟩
    · intro m s hms
      dsimp only [insertState] at hms
      simp only [cacheInsert] at hms
      by_cases hc : m = (flushedState env σ).currentMode ∧
          s = (flushedState env σ).default_size (flushedState env σ).currentMode
      · rw [hmode3] at hc
        rw [htab3] at hc
        exact hc
      · rw [if_neg hc] at hms
        rw [hcache3] at hms
        simp at hms
    · rw [← hmode3, ← htab3]
      dsimp only [insertState]
      simp only [cacheInsert]
      rw [if_pos ⟨trivial, trivial⟩]
      exact hout.symm

/-- C7 counterexample: with the outline backend disabled, `readSettings`
succeeds but leaves the `FM_Standard` default-size entry at its stale
value 42 even though the configured `font_size` is 13 — the table is not
wholly recomputed. -/
theorem readSettings_stale_table_cex :
    (readSettings envC7 σC7).map (fun st => st.default_size .FM_Standard) = some 42 ∧
    envC7.settingsU16 "font_size" = 13 ∧ (42 : Nat) ≠ 13 :=
  ⟨rfl, rfl, by decide⟩

/-- C7 witness: a concrete successful `readSettings` run. -/
theorem readSettings_effect_witness :
    readSettings envC7 σC7 = some (flushedState envC7 σC7) ∧
    (flushedState envC7 σC7).currentMode = specActiveMode envC7 :=
  ⟨rfl, (readSettings_effect envC7 σC7 (flushedState envC7 σC7) rfl).1⟩
